import Mathlib

/-!
Verification of `python-gnumeric-example.py`, a run-once workflow that opens
or creates a Gnumeric spreadsheet, ensures a header row, fetches a BTC/USD
quote, appends a timestamped data row, formats the price cell, and saves.

The script is a shallow embedding: the spreadsheet data model (cell values,
styles, ranges, sheets, workbooks) and the script's operations are rendered
as pure Lean functions; filesystem and network effects are threaded
explicitly (the filesystem as a map from URIs to stored workbooks, the
fetched quote and the save outcome as parameters).  Machine floating point
is modelled by exact rationals.
-/

/-- A value stored in a spreadsheet cell: Gnumeric's `Value` as used by the
script, either a floating-point number (modelled by `ℚ`) or a string. -/
inductive GnmValue where
  | vFloat : ℚ → GnmValue
  | vString : String → GnmValue
  deriving DecidableEq

/-- A style bundle as built by the script: `Gnm.Style.new()` starts with no
elements set; `set_font_bold` and `set_format_text` set single elements.
Unset elements (`none`) are not touched when the style is applied. -/
structure GnmStyle where
  fontBold : Option Bool
  formatText : Option String
  deriving DecidableEq

/-- `Gnm.Style.new()`: a style with no elements set. -/
def GnmStyle.new : GnmStyle := ⟨none, none⟩

/-- `st.set_font_bold(b)`. -/
def GnmStyle.set_font_bold (st : GnmStyle) (b : Bool) : GnmStyle :=
  { st with fontBold := some b }

/-- `st.set_format_text(f)`. -/
def GnmStyle.set_format_text (st : GnmStyle) (f : String) : GnmStyle :=
  { st with formatText := some f }

/-- Applying style `st` on top of `base`: elements set in `st` replace the
corresponding elements of `base`; unset elements of `st` leave `base` alone. -/
def GnmStyle.overlay (base st : GnmStyle) : GnmStyle :=
  ⟨(st.fontBold).elim base.fontBold some, (st.formatText).elim base.formatText some⟩

/-- A rectangular cell range `(startCol,startRow)-(endCol,endRow)`,
inclusive, zero-based, as produced by `Gnm.Range().init(c1,r1,c2,r2)`. -/
structure GnmRange where
  startCol : Nat
  startRow : Nat
  endCol : Nat
  endRow : Nat
  deriving DecidableEq

/-- `r.init(c1,r1,c2,r2)` (col row col row order, as in the source). -/
def GnmRange.rinit (c1 r1 c2 r2 : Nat) : GnmRange := ⟨c1, r1, c2, r2⟩

/-- Membership of cell `(c,r)` in range `rg` (inclusive bounds). -/
def GnmRange.containsB (rg : GnmRange) (c r : Nat) : Bool :=
  decide (rg.startCol ≤ c) && decide (c ≤ rg.endCol) &&
  decide (rg.startRow ≤ r) && decide (r ≤ rg.endRow)

/-- A sheet: a named 2-D grid of cells addressed by zero-based
`(column, row)`, with `rows` the sheet's row count (`sheet.props.rows`),
a per-cell optional value and a per-cell style. -/
structure Sheet where
  name : String
  rows : Nat
  val : Nat → Nat → Option GnmValue
  style : Nat → Nat → GnmStyle

/-- `sheet.cell_get_value(c,r)`: `none` models Python `None` (no value). -/
def Sheet.cell_get_value (s : Sheet) (c r : Nat) : Option GnmValue :=
  s.val c r

/-- `sheet.cell_set_text(c,r,t)`: stores the given text into the cell (the
engine's own re-interpretation of the text into native types is outside the
model; the cell records the written text). -/
def Sheet.cell_set_text (s : Sheet) (c r : Nat) (t : String) : Sheet :=
  { s with val := fun c' r' =>
      if c' = c ∧ r' = r then some (GnmValue.vString t) else s.val c' r' }

/-- `sheet.cell_set_value(c,r,v)`: stores a typed value into the cell. -/
def Sheet.cell_set_value (s : Sheet) (c r : Nat) (v : GnmValue) : Sheet :=
  { s with val := fun c' r' =>
      if c' = c ∧ r' = r then some v else s.val c' r' }

/-- `sheet.apply_style(rg,st)`: overlays `st` on every cell inside `rg`,
leaving every cell outside `rg` (and all cell values) unchanged. -/
def Sheet.apply_style (s : Sheet) (rg : GnmRange) (st : GnmStyle) : Sheet :=
  { s with style := fun c r =>
      if rg.containsB c r then (s.style c r).overlay st else s.style c r }

/-- Default number of rows of a freshly created Gnumeric sheet. -/
def gnmDefaultRows : Nat := 65536

/-- The `i`-th sheet of a fresh workbook (zero-based): default name, default
size, no values, default styles. -/
def defaultSheet (i : Nat) : Sheet :=
  { name := "Sheet" ++ toString (i + 1), rows := gnmDefaultRows,
    val := fun _ _ => none, style := fun _ _ => GnmStyle.new }

/-- A workbook: a URI-addressed document holding a list of sheets. -/
structure Workbook where
  uri : String
  sheets : List Sheet

/-- `Gnm.Workbook.new_with_sheets(n)`: fresh workbook with `n` default
sheets and no URI set yet. -/
def Workbook.new_with_sheets (n : Nat) : Workbook :=
  { uri := "", sheets := (List.range n).map defaultSheet }

/-- `wb.sheet_by_index(i)`. -/
def Workbook.sheet_by_index (wb : Workbook) (i : Nat) : Option Sheet :=
  wb.sheets.get? i

/-- Write back sheet `sh` at index `i` (the Python code mutates the sheet
obtained from `sheet_by_index` in place; the embedding threads the update
explicitly). -/
def Workbook.set_sheet (wb : Workbook) (i : Nat) (sh : Sheet) : Workbook :=
  { wb with sheets := wb.sheets.set i sh }

/-- `GOffice.filename_to_uri`: converts a filename to a `file://` URI. -/
def filename_to_uri (f : String) : String := "file://" ++ f

/-- The filesystem, as the save/load layer sees it: a map from URIs to the
workbook stored there (`none`: no regular file at that path). -/
def FS : Type := String → Option Workbook

/-- Python errors the workflow can raise. -/
inductive PyError where
  | ioError : String → PyError
  | nameError : String → PyError
  | valueError : String → PyError
  | indexError : String → PyError
  deriving DecidableEq

/-- `wb_open(filename)`: if a regular file exists at the path, load the
workbook stored there (the transient `WorkbookView` wrapper of the source is
load-only and dropped at once, so it does not appear in the model);
otherwise build a brand-new single-sheet workbook and set its URI to the
path's URI.  The filesystem is returned alongside to record that opening
performs no write. -/
def wb_open (fs : FS) (filename : String) : Workbook × FS :=
  let uri := filename_to_uri filename
  match fs uri with
  | some wb => (wb, fs)
  | none => ({ Workbook.new_with_sheets 1 with uri := uri }, fs)

/-- The URI `wb_save` saves to: the explicit filename when given, else the
workbook's own URI. -/
def saveTargetUri (wb : Workbook) (filename : Option String) : String :=
  match filename with
  | none => wb.uri
  | some f => filename_to_uri f

/-- `wb_save(wb, filename)`: resolve the target URI, run the underlying
save (its outcome is the external parameter `saveOk`, the result of
`wbv.save_as(fs, uri, cc)`); on success the file at the URI now stores the
workbook, on failure raise `IOError("Failed to save workbook")` and leave
the filesystem untouched. -/
def wb_save (saveOk : String → Bool) (fs : FS) (wb : Workbook)
    (filename : Option String) : Except PyError FS :=
  let uri := saveTargetUri wb filename
  if saveOk uri then
    Except.ok (fun u => if u = uri then some wb else fs u)
  else
    Except.error (PyError.ioError "Failed to save workbook")

/-- Python's `for row in rs: if p row: break` followed by a use of `row`:
returns the loop variable's final binding — the first element satisfying
`p`, or the last element when no element satisfies `p`, or `none` when the
iterable is empty (the Python code would then hit a `NameError`). -/
def scanLoop (p : Nat → Bool) : List Nat → Option Nat
  | [] => none
  | r :: rest =>
      if p r then some r else some ((scanLoop p rest).getD r)

/-- The row-end finder of `main` (lines 122-124):
`for row in range(2, sheet.props.rows): if sheet.cell_get_value(1,row) is None: break`. -/
def Sheet.findRow (s : Sheet) : Option Nat :=
  scanLoop (fun r => (s.cell_get_value 1 r).isNone) (List.range' 2 (s.rows - 2))

/-- The schema-ensure step of `main` (lines 102-113): if the sentinel cell
`(1,1)` holds no value, write the two header labels as text and bold the
range `(1,1)-(2,1)`; otherwise do nothing. -/
def ensureSchema (sheet : Sheet) : Sheet :=
  if sheet.cell_get_value 1 1 = none then
    let s1 := sheet.cell_set_text 1 1 "Timestamp (UTC)"
    let s2 := s1.cell_set_text 2 1 "BTC Price (USD)"
    let st := GnmStyle.new.set_font_bold true
    let r := GnmRange.rinit 1 1 2 1
    s2.apply_style r st
  else
    sheet

/-- Value of a decimal digit character, `none` for non-digits. -/
def decDigit (c : Char) : Option Nat :=
  if '0' ≤ c ∧ c ≤ '9' then some (c.toNat - 48) else none

/-- Two fixed decimal digits. -/
def num2 (a b : Char) : Option Nat := do
  let x ← decDigit a
  let y ← decDigit b
  pure (10 * x + y)

/-- Four fixed decimal digits. -/
def num4 (a b c d : Char) : Option Nat := do
  let x ← num2 a b
  let y ← num2 c d
  pure (100 * x + y)

/-- The broken-down calendar/time value `dateutil.parser.parse` produces
(the fields `strftime("%Y-%m-%d %H:%M:%S")` reads). -/
structure PyDateTime where
  year : Nat
  month : Nat
  day : Nat
  hour : Nat
  minute : Nat
  second : Nat
  deriving DecidableEq

/-- An ISO-8601 timezone designator: absent, `Z`, or `±HH:MM`. -/
def tzOk : List Char → Bool
  | [] => true
  | ['Z'] => true
  | '+' :: h1 :: h2 :: ':' :: m1 :: m2 :: [] => (num2 h1 h2).isSome && (num2 m1 m2).isSome
  | '-' :: h1 :: h2 :: ':' :: m1 :: m2 :: [] => (num2 h1 h2).isSome && (num2 m1 m2).isSome
  | _ => false

/-- Behaviour of the external `dateutil.parser.parse` on ISO-8601 extended
timestamps `YYYY-MM-DDTHH:MM:SS[Z|±HH:MM]` (the shape named by the spec):
the calendar components are extracted; any timezone designator is accepted
and then irrelevant to `strftime("%Y-%m-%d %H:%M:%S")`, which drops it.
Unparseable input models dateutil raising `ValueError`. -/
def dateutil_parse (s : String) : Option PyDateTime :=
  match s.toList with
  | y1 :: y2 :: y3 :: y4 :: '-' :: mo1 :: mo2 :: '-' :: d1 :: d2 :: 'T' ::
      h1 :: h2 :: ':' :: mi1 :: mi2 :: ':' :: sec1 :: sec2 :: rest => do
    let y ← num4 y1 y2 y3 y4
    let mo ← num2 mo1 mo2
    let d ← num2 d1 d2
    let h ← num2 h1 h2
    let mi ← num2 mi1 mi2
    let sec ← num2 sec1 sec2
    if 1 ≤ mo ∧ mo ≤ 12 ∧ 1 ≤ d ∧ d ≤ 31 ∧ h ≤ 23 ∧ mi ≤ 59 ∧ sec ≤ 59 ∧ tzOk rest then
      some ⟨y, mo, d, h, mi, sec⟩
    else
      none
  | _ => none

/-- Zero-pad to two digits (`%m`, `%d`, `%H`, `%M`, `%S`). -/
def pad2 (n : Nat) : String :=
  if n < 10 then "0" ++ toString n else toString n

/-- Zero-pad to four digits (`%Y`). -/
def pad4 (n : Nat) : String :=
  if n < 10 then "000" ++ toString n
  else if n < 100 then "00" ++ toString n
  else if n < 1000 then "0" ++ toString n
  else toString n

/-- `tdate.strftime("%Y-%m-%d %H:%M:%S")`: 24-hour, zero-padded, and with
no timezone suffix. -/
def strftimeYmdHMS (t : PyDateTime) : String :=
  pad4 t.year ++ "-" ++ pad2 t.month ++ "-" ++ pad2 t.day ++ " " ++
  pad2 t.hour ++ ":" ++ pad2 t.minute ++ ":" ++ pad2 t.second

/-- Numeric value of a digit string; the empty string counts 0 (its caller
rules out the empty-on-both-sides case). -/
def digitsVal (cs : List Char) : Option Nat :=
  cs.foldl (fun acc c =>
    match acc, decDigit c with
    | some n, some d => some (10 * n + d)
    | _, _ => none) (some 0)

/-- Behaviour of the external `locale.atof` under a locale whose grouping
separator is `,` and whose decimal point is `.` (the situation the spec
names): grouping separators are removed, then the string is read as an
unsigned decimal literal, exactly (`ℚ` models the ideal value of the
machine float).  Unparseable input models `ValueError`. -/
def locale_atof (s : String) : Option ℚ :=
  let cs := (s.toList).filter (fun c => c ≠ ',')
  let p := cs.span (fun c => c ≠ '.')
  match p.2 with
  | [] => if p.1 = [] then none else (digitsVal p.1).map (fun n => (n : ℚ))
  | '.' :: frac =>
      if p.1 = [] ∧ frac = [] then none
      else do
        let i ← digitsVal p.1
        let f ← digitsVal frac
        pure ((i : ℚ) + (f : ℚ) / (10 : ℚ) ^ frac.length)
  | _ => none

/-- The two fields `main` extracts from the fetched JSON payload:
`data['time']['updated']` and `data['bpi']['USD']['rate']`. -/
structure Quote where
  updated : String
  rate : String

/-- The two cell writes of `main` (lines 158 and 167): the reformatted
timestamp as text into column 1 of the target row, the parsed price as a
typed float value into column 2 of the same row. -/
def writeCells (sheet : Sheet) (row : Nat) (dt : PyDateTime) (x : ℚ) : Sheet :=
  (sheet.cell_set_text 1 row (strftimeYmdHMS dt)).cell_set_value 2 row (GnmValue.vFloat x)

/-- The price style of `main` (lines 171-172): `Gnm.Style.new()` with
`set_format_text("$0,000")` — a currency (dollar-sign), thousands-separated,
zero-decimal-places number format. -/
def priceStyle : GnmStyle := GnmStyle.new.set_format_text "$0,000"

/-- The price-formatting step of `main` (lines 171-175): apply `priceStyle`
to the single-cell range `(2,row)-(2,row)`. -/
def formatPrice (sheet : Sheet) (row : Nat) : Sheet :=
  sheet.apply_style (GnmRange.rinit 2 row 2 row) priceStyle

/-- The row-writer portion of `main` (lines 149-175): parse the fetched
timestamp (`ValueError` on failure), parse the fetched price string
(`ValueError` on failure), write both cells, then format the price cell. -/
def writeRow (sheet : Sheet) (row : Nat) (q : Quote) : Except PyError Sheet :=
  match dateutil_parse q.updated with
  | none => Except.error (PyError.valueError "Unknown string format")
  | some tdate =>
    match locale_atof q.rate with
    | none => Except.error (PyError.valueError "could not convert string to float")
    | some x => Except.ok (formatPrice (writeCells sheet row tdate x) row)

/-- `main` up to (but excluding) the save: open or create the workbook,
take sheet 0 (`IndexError` if there is none), rename it when needed, ensure
the schema, find the target row (`NameError` when `range(2, rows)` is empty
and the loop variable stays unbound), and run the row writer.  Returns the
in-memory workbook as it stands when `wb_save` is invoked. -/
def mainDoc (fs : FS) (q : Quote) : Except PyError Workbook :=
  let wb := (wb_open fs "btcprices.gnumeric").1
  match wb.sheet_by_index 0 with
  | none => Except.error (PyError.indexError "sheet out of range")
  | some sheet0 =>
    let sheet1 := if sheet0.name ≠ "Bitcoin Prices" then { sheet0 with name := "Bitcoin Prices" } else sheet0
    let sheet2 := ensureSchema sheet1
    match sheet2.findRow with
    | none => Except.error (PyError.nameError "row")
    | some row =>
      match writeRow sheet2 row q with
      | Except.error e => Except.error e
      | Except.ok sheet3 => Except.ok (wb.set_sheet 0 sheet3)

/-- The whole workflow of `main`: the pre-save mutations followed by
`wb_save(wb)`.  The result pairs the process outcome (normal exit or the
uncaught error) with the filesystem after the run; an uncaught error leaves
the filesystem exactly as it was, since the successful save is the only
operation that writes to disk. -/
def runMain (saveOk : String → Bool) (fs : FS) (q : Quote) :
    Except PyError Unit × FS :=
  match mainDoc fs q with
  | Except.error e => (Except.error e, fs)
  | Except.ok wb =>
    match wb_save saveOk fs wb none with
    | Except.error e => (Except.error e, fs)
    | Except.ok fs' => (Except.ok (), fs')

/-! ## Concrete fixtures used by witnesses -/

/-- A sheet with 8 rows whose column 1 is filled in rows 2 and 3 only. -/
def sheetTwoFilled : Sheet :=
  { name := "Bitcoin Prices", rows := 8,
    val := fun c r => if c = 1 ∧ 2 ≤ r ∧ r ≤ 3 then some (GnmValue.vFloat 1) else none,
    style := fun _ _ => GnmStyle.new }

/-- A sheet whose sentinel cell `(1,1)` already holds a value. -/
def sheetInitialized : Sheet :=
  { name := "Bitcoin Prices", rows := 8,
    val := fun c r => if c = 1 ∧ r = 1 then some (GnmValue.vString "Timestamp (UTC)") else none,
    style := fun _ _ => GnmStyle.new }

/-- A sheet whose column 1 is filled in every data row (rows 2..4 of 5). -/
def sheetAllFilled : Sheet :=
  { name := "Bitcoin Prices", rows := 5,
    val := fun c r => if c = 1 ∧ 2 ≤ r then some (GnmValue.vFloat 2) else none,
    style := fun _ _ => GnmStyle.new }

/-- A sheet where row 3 has no column-1 value but does hold a column-2
value (rows 2..4 filled in column 2, only row 2 filled in column 1). -/
def sheetColumn2Full : Sheet :=
  { name := "Bitcoin Prices", rows := 8,
    val := fun c r =>
      if c = 1 ∧ r = 2 then some (GnmValue.vFloat 3)
      else if c = 2 ∧ 2 ≤ r ∧ r ≤ 4 then some (GnmValue.vFloat 3) else none,
    style := fun _ _ => GnmStyle.new }

/-- An empty filesystem: no file exists anywhere. -/
def fsEmpty : FS := fun _ => none

/-- A fresh single-sheet workbook. -/
def wbFresh : Workbook := Workbook.new_with_sheets 1

/-- A workbook stored on disk at the script's fixed path. -/
def wbStored : Workbook :=
  { uri := filename_to_uri "btcprices.gnumeric", sheets := [sheetTwoFilled] }

/-- A filesystem holding `wbStored` at the script's fixed path. -/
def fsOne : FS :=
  fun u => if u = filename_to_uri "btcprices.gnumeric" then some wbStored else none

/-- The quote payload fields of the spec's examples. -/
def wQuote : Quote := { updated := "2021-06-01T14:23:05Z", rate := "12,345.67" }

/-- The calendar value of the example timestamp. -/
def dt0 : PyDateTime := ⟨2021, 6, 1, 14, 23, 5⟩

/-- The rational `locale_atof "12,345.67"` literally computes to
(definitionally; its normal form is `12345.67`). -/
def x0 : ℚ := ((12345 : ℕ) : ℚ) + ((67 : ℕ) : ℚ) / (10 : ℚ) ^ (2 : ℕ)

/-- The in-memory workbook as it stands at save time when the workflow runs
against `fsOne` with quote `wQuote`. -/
def wbAfter : Workbook :=
  wbStored.set_sheet 0 (formatPrice (writeCells (ensureSchema sheetTwoFilled) 4 dt0 x0) 4)

/-! ## Helper lemmas about the scan loop -/

/-- Unfolding of the loop on a nonempty iterable. -/
theorem scanLoop_cons (p : Nat → Bool) (r : Nat) (rest : List Nat) :
    scanLoop p (r :: rest) = if p r then some r else some ((scanLoop p rest).getD r) :=
  rfl

/-- If the first `k` elements of `range' a n` fail `p` and the `k`-th
satisfies it, the loop breaks there. -/
theorem scanLoop_break (p : Nat → Bool) (k : Nat) :
    ∀ a n, k < n → (∀ i, i < k → p (a + i) = false) → p (a + k) = true →
    scanLoop p (List.range' a n) = some (a + k) := by
  induction k with
  | zero =>
    intro a n hn _ hk
    match n, hn with
    | n + 1, _ =>
      rw [List.range'_succ, scanLoop_cons]
      have h : p a = true := by simpa using hk
      rw [h]
      simp
  | succ k ih =>
    intro a n hlt hfalse htrue
    match n, hlt with
    | n + 1, hlt =>
      have hpa : p a = false := by simpa using hfalse 0 (Nat.succ_pos k)
      have hrec : scanLoop p (List.range' (a + 1) n) = some (a + 1 + k) := by
        refine ih (a + 1) n (by omega) (fun i hi => ?_) ?_
        · have := hfalse (i + 1) (by omega)
          simpa [Nat.add_assoc, Nat.add_comm 1 i] using this
        · simpa [Nat.add_assoc, Nat.add_comm 1 k] using htrue
      rw [List.range'_succ, scanLoop_cons, if_neg (by simp [hpa]), hrec,
        Option.getD_some]
      exact congrArg some (by omega)

/-- If every element of `range' a n` fails `p`, the loop runs to completion
and the loop variable ends at the last element `a + n - 1`. -/
theorem scanLoop_exhaust (p : Nat → Bool) :
    ∀ n a, 0 < n → (∀ i, i < n → p (a + i) = false) →
    scanLoop p (List.range' a n) = some (a + n - 1) := by
  intro n
  induction n with
  | zero => intro a h; omega
  | succ n ih =>
    intro a _ hall
    have hpa : p a = false := by simpa using hall 0 (Nat.succ_pos n)
    cases n with
    | zero =>
      rw [List.range'_succ, scanLoop_cons, if_neg (by simp [hpa]), List.range'_zero]
      simp [scanLoop]
    | succ m =>
      have hrec : scanLoop p (List.range' (a + 1) (m + 1)) = some (a + 1 + (m + 1) - 1) := by
        refine ih (a + 1) (Nat.succ_pos m) (fun i hi => ?_)
        have := hall (i + 1) (by omega)
        simpa [Nat.add_assoc, Nat.add_comm 1 i] using this
      rw [List.range'_succ, scanLoop_cons, if_neg (by simp [hpa]), hrec,
        Option.getD_some]
      exact congrArg some (by omega)

/-- Core fact about the row-end finder: when row `r0` is the first row at
or after index 2 whose column-1 cell holds no value, and `r0` is in range,
the scan stops at `r0`. -/
theorem findRow_eq_first_empty (s : Sheet) (r0 : Nat)
    (h2 : 2 ≤ r0) (hlt : r0 < s.rows)
    (hempty : s.cell_get_value 1 r0 = none)
    (hprev : ∀ r, 2 ≤ r → r < r0 → (s.cell_get_value 1 r).isSome) :
    s.findRow = some r0 := by
  unfold Sheet.findRow
  have hr0 : r0 = 2 + (r0 - 2) := by omega
  rw [hr0]
  refine scanLoop_break _ (r0 - 2) 2 (s.rows - 2) (by omega) (fun i hi => ?_)
    (by rw [← hr0]; simp [hempty])
  have h := hprev (2 + i) (by omega) (by omega)
  rcases Option.isSome_iff_exists.mp h with ⟨v, hv⟩
  simp [hv]

/-! ## Claims -/

/-- **C1.** For every sheet whose column 1 holds a value in each of rows
`2 .. 2+N-1` and no value in row `2+N` (a row of the sheet, so
`2+N < rows`), the row-end finder — the scan starting at row index 2 —
returns row index `2+N`, the first row whose column-1 cell holds no
value. -/
theorem findRow_first_empty (s : Sheet) (N : Nat)
    (hbound : 2 + N < s.rows)
    (hfilled : ∀ r, 2 ≤ r → r < 2 + N → (s.cell_get_value 1 r).isSome)
    (hempty : s.cell_get_value 1 (2 + N) = none) :
    s.findRow = some (2 + N) :=
  findRow_eq_first_empty s (2 + N) (by omega) hbound hempty hfilled

/-- Witness for C1: a concrete sheet with two filled data rows (rows 2, 3)
and row 4 empty; the finder returns 4 = 2 + 2. -/
theorem findRow_first_empty_witness :
    (2 + 2 < sheetTwoFilled.rows ∧ sheetTwoFilled.cell_get_value 1 (2 + 2) = none) ∧
      sheetTwoFilled.findRow = some (2 + 2) := by
  refine ⟨⟨by decide, by decide⟩, ?_⟩
  refine findRow_first_empty sheetTwoFilled 2 (by decide) (fun r h1 h2 => ?_) (by decide)
  interval_cases r <;> decide

/-- After a first-run initialization, the sentinel cell holds the first
header label. -/
theorem ensureSchema_sets_sentinel (s : Sheet) (h : s.cell_get_value 1 1 = none) :
    (ensureSchema s).cell_get_value 1 1 = some (GnmValue.vString "Timestamp (UTC)") := by
  have h' : s.val 1 1 = none := h
  simp [ensureSchema, h', Sheet.apply_style, Sheet.cell_set_text, Sheet.cell_get_value]

/-- **C2.** The schema-ensure step is idempotent: running it twice leaves
the same sheet (header-row content and style included) as running it once,
and on a sheet whose sentinel cell `(1,1)` already holds a value it
performs no writes at all (it returns the sheet unchanged). -/
theorem ensureSchema_idempotent (s : Sheet) :
    ensureSchema (ensureSchema s) = ensureSchema s ∧
      (s.cell_get_value 1 1 ≠ none → ensureSchema s = s) := by
  constructor
  · by_cases h : s.cell_get_value 1 1 = none
    · have hset := ensureSchema_sets_sentinel s h
      conv_lhs => rw [ensureSchema]
      rw [if_neg (by simp [hset])]
    · have hs : ensureSchema s = s := by rw [ensureSchema, if_neg h]
      rw [hs, hs]
  · intro h
    rw [ensureSchema, if_neg h]

/-- Witness for C2: on a sheet whose sentinel already holds a value,
rerunning schema-ensure changes nothing, and a single run is already a
no-op. -/
theorem ensureSchema_idempotent_witness :
    sheetInitialized.cell_get_value 1 1 ≠ none ∧
      ensureSchema (ensureSchema sheetInitialized) = ensureSchema sheetInitialized ∧
      ensureSchema sheetInitialized = sheetInitialized :=
  ⟨by decide, (ensureSchema_idempotent sheetInitialized).1,
    (ensureSchema_idempotent sheetInitialized).2 (by decide)⟩

/-- **C3.** For every workbook and target URI, if the underlying save
operation reports failure then `wb_save` raises
`IOError("Failed to save workbook")`; if it succeeds, `wb_save` returns
normally (no error). -/
theorem wb_save_error_contract (saveOk : String → Bool) (fs : FS) (wb : Workbook)
    (filename : Option String) :
    (saveOk (saveTargetUri wb filename) = false →
        wb_save saveOk fs wb filename =
          Except.error (PyError.ioError "Failed to save workbook")) ∧
      (saveOk (saveTargetUri wb filename) = true →
        ∃ fs', wb_save saveOk fs wb filename = Except.ok fs') := by
  constructor
  · intro h
    simp [wb_save, h]
  · intro h
    simp [wb_save, h]

/-- Witness for C3: with a failing save the error is raised; with a
succeeding save the call returns normally. -/
theorem wb_save_error_contract_witness :
    wb_save (fun _ => false) fsEmpty wbFresh none =
        Except.error (PyError.ioError "Failed to save workbook") ∧
      ∃ fs', wb_save (fun _ => true) fsEmpty wbFresh none = Except.ok fs' :=
  ⟨(wb_save_error_contract (fun _ => false) fsEmpty wbFresh none).1 rfl,
    (wb_save_error_contract (fun _ => true) fsEmpty wbFresh none).2 rfl⟩

/-- The price string of the spec's example parses, exactly, to
`12345.67`. -/
theorem locale_atof_example : locale_atof "12,345.67" = some (1234567 / 100 : ℚ) := by
  have h : locale_atof "12,345.67" = some x0 := rfl
  rw [h]
  unfold x0
  norm_num

/-- The row writer succeeds exactly when both external parses succeed, and
then produces the formatted sheet. -/
theorem writeRow_ok (sheet : Sheet) (row : Nat) (q : Quote) (dt : PyDateTime) (x : ℚ)
    (hts : dateutil_parse q.updated = some dt) (hx : locale_atof q.rate = some x) :
    writeRow sheet row q = Except.ok (formatPrice (writeCells sheet row dt x) row) := by
  simp [writeRow, hts, hx]

/-- The two cell writes land where the source points them: the timestamp
text in column 1 of the target row, the typed float in column 2; the
price-formatting step does not move any value. -/
theorem writeCells_values (sheet : Sheet) (row : Nat) (dt : PyDateTime) (x : ℚ) :
    (formatPrice (writeCells sheet row dt x) row).cell_get_value 1 row =
        some (GnmValue.vString (strftimeYmdHMS dt)) ∧
      (formatPrice (writeCells sheet row dt x) row).cell_get_value 2 row =
        some (GnmValue.vFloat x) := by
  constructor <;>
    simp [formatPrice, writeCells, Sheet.apply_style, Sheet.cell_set_text,
      Sheet.cell_set_value, Sheet.cell_get_value]

/-- **C4.** For every fetched ISO-8601 timestamp (one `dateutil` parses to
a calendar value `dt`, with the price string also parseable), the row
writer reformats it as `YYYY-MM-DD HH:MM:SS` — `strftimeYmdHMS`, 24-hour,
zero-padded, no timezone suffix — and writes that string as text into
column 1 of the target row; in particular `"2021-06-01T14:23:05Z"` parses
to `2021-06-01 14:23:05` and is written as exactly that text. -/
theorem timestamp_written_as_text (sheet : Sheet) (row : Nat) (q : Quote)
    (dt : PyDateTime) (x : ℚ)
    (hts : dateutil_parse q.updated = some dt) (hx : locale_atof q.rate = some x) :
    (∃ s', writeRow sheet row q = Except.ok s' ∧
        s'.cell_get_value 1 row = some (GnmValue.vString (strftimeYmdHMS dt))) ∧
      dateutil_parse "2021-06-01T14:23:05Z" = some ⟨2021, 6, 1, 14, 23, 5⟩ ∧
      strftimeYmdHMS ⟨2021, 6, 1, 14, 23, 5⟩ = "2021-06-01 14:23:05" := by
  refine ⟨⟨formatPrice (writeCells sheet row dt x) row,
    writeRow_ok sheet row q dt x hts hx, (writeCells_values sheet row dt x).1⟩,
    by decide, by decide⟩

/-- Witness for C4: running the row writer on a concrete sheet with the
example quote writes the text `2021-06-01 14:23:05` into column 1 of
row 4. -/
theorem timestamp_written_as_text_witness :
    ∃ s', writeRow sheetTwoFilled 4 wQuote = Except.ok s' ∧
      s'.cell_get_value 1 4 = some (GnmValue.vString "2021-06-01 14:23:05") := by
  have h := (timestamp_written_as_text sheetTwoFilled 4 wQuote ⟨2021, 6, 1, 14, 23, 5⟩
    x0 rfl rfl).1
  have e : strftimeYmdHMS ⟨2021, 6, 1, 14, 23, 5⟩ = "2021-06-01 14:23:05" := by decide
  rw [e] at h
  exact h

/-- **C5.** The fetched price string is parsed with locale-aware numeric
parsing (grouping separators removed) and written into column 2 of the
target row as a typed numeric value (`vFloat`), not text; in particular
`"12,345.67"` under a comma-grouping locale parses to exactly
`12345.67`. -/
theorem price_written_as_number (sheet : Sheet) (row : Nat) (q : Quote)
    (dt : PyDateTime) (x : ℚ)
    (hts : dateutil_parse q.updated = some dt) (hx : locale_atof q.rate = some x) :
    (∃ s', writeRow sheet row q = Except.ok s' ∧
        s'.cell_get_value 2 row = some (GnmValue.vFloat x)) ∧
      locale_atof "12,345.67" = some (1234567 / 100 : ℚ) :=
  ⟨⟨formatPrice (writeCells sheet row dt x) row,
    writeRow_ok sheet row q dt x hts hx, (writeCells_values sheet row dt x).2⟩,
    locale_atof_example⟩

/-- Witness for C5: on a concrete sheet and the example quote, column 2 of
row 4 receives the typed value `12345.67`. -/
theorem price_written_as_number_witness :
    ∃ s', writeRow sheetTwoFilled 4 wQuote = Except.ok s' ∧
      s'.cell_get_value 2 4 = some (GnmValue.vFloat (1234567 / 100 : ℚ)) := by
  have h := (price_written_as_number sheetTwoFilled 4 wQuote ⟨2021, 6, 1, 14, 23, 5⟩
    x0 rfl rfl).1
  have e : x0 = (1234567 / 100 : ℚ) := by unfold x0; norm_num
  rw [e] at h
  exact h

/-- **C6.** For every path at which no regular file exists, the workbook
locator builds a brand-new document with exactly one sheet and sets its URI
to the path's URI, writing nothing to disk; for every path at which a file
exists, it returns the document loaded from that URI (also without touching
the disk). -/
theorem wb_open_contract (fs : FS) (p : String) :
    (fs (filename_to_uri p) = none →
        (wb_open fs p).1.sheets.length = 1 ∧
        (wb_open fs p).1.uri = filename_to_uri p ∧
        (wb_open fs p).2 = fs) ∧
      (∀ wb, fs (filename_to_uri p) = some wb → wb_open fs p = (wb, fs)) := by
  constructor
  · intro h
    simp [wb_open, h, Workbook.new_with_sheets]
  · intro wb h
    simp [wb_open, h]

/-- Witness for C6: opening against an empty filesystem creates a fresh
one-sheet workbook addressed at the target path; opening against a
filesystem holding a stored workbook returns that workbook. -/
theorem wb_open_contract_witness :
    ((wb_open fsEmpty "btcprices.gnumeric").1.sheets.length = 1 ∧
        (wb_open fsEmpty "btcprices.gnumeric").1.uri = filename_to_uri "btcprices.gnumeric" ∧
        (wb_open fsEmpty "btcprices.gnumeric").2 = fsEmpty) ∧
      wb_open fsOne "btcprices.gnumeric" = (wbStored, fsOne) :=
  ⟨(wb_open_contract fsEmpty "btcprices.gnumeric").1 rfl,
    (wb_open_contract fsOne "btcprices.gnumeric").2 wbStored rfl⟩

/-- **C7.** After the price is written, the style whose number-format
pattern is `"$0,000"` (currency, thousands-separated, zero decimal places)
is applied to exactly the single-cell range `(2,row)-(2,row)`: that cell's
style gains the format, every other cell's style is untouched, and no cell
value changes in this step. -/
theorem price_format_exact_range (sheet : Sheet) (row : Nat) :
    (formatPrice sheet row).style 2 row = (sheet.style 2 row).overlay priceStyle ∧
      priceStyle.formatText = some "$0,000" ∧
      (∀ c r, ¬(c = 2 ∧ r = row) → (formatPrice sheet row).style c r = sheet.style c r) ∧
      (∀ c r, (formatPrice sheet row).val c r = sheet.val c r) := by
  refine ⟨?_, rfl, ?_, ?_⟩
  · simp [formatPrice, Sheet.apply_style, GnmRange.containsB, GnmRange.rinit]
  · intro c r h
    have hc : ¬((GnmRange.rinit 2 row 2 row).containsB c r = true) := by
      simp only [GnmRange.containsB, GnmRange.rinit, Bool.and_eq_true, decide_eq_true_eq]
      omega
    simp [formatPrice, Sheet.apply_style, hc]
  · intro c r
    simp [formatPrice, Sheet.apply_style]

/-- Witness for C7: formatting row 4 of a concrete sheet styles cell
`(2,4)` and leaves the styles of `(1,4)` and `(2,3)` and the value of
`(1,2)` unchanged. -/
theorem price_format_exact_range_witness :
    (formatPrice sheetTwoFilled 4).style 2 4 = (sheetTwoFilled.style 2 4).overlay priceStyle ∧
      (formatPrice sheetTwoFilled 4).style 1 4 = sheetTwoFilled.style 1 4 ∧
      (formatPrice sheetTwoFilled 4).style 2 3 = sheetTwoFilled.style 2 3 ∧
      (formatPrice sheetTwoFilled 4).val 1 2 = sheetTwoFilled.val 1 2 :=
  ⟨(price_format_exact_range sheetTwoFilled 4).1,
    (price_format_exact_range sheetTwoFilled 4).2.2.1 1 4 (by decide),
    (price_format_exact_range sheetTwoFilled 4).2.2.1 2 3 (by decide),
    (price_format_exact_range sheetTwoFilled 4).2.2.2 1 2⟩

/-- Writing a sheet back at index 0 makes it the workbook's sheet 0
(provided sheet 0 existed). -/
theorem set_sheet_zero (wb : Workbook) (sh0 sh : Sheet)
    (h : wb.sheet_by_index 0 = some sh0) :
    (wb.set_sheet 0 sh).sheet_by_index 0 = some sh := by
  unfold Workbook.sheet_by_index Workbook.set_sheet at *
  cases hl : wb.sheets with
  | nil => rw [hl] at h; simp at h
  | cons a t => simp [hl]

/-- Dissection of a successful pre-save run: the workbook handed to
`wb_save` carries a sheet 0 whose target row holds the two written
values. -/
theorem mainDoc_ok_cells (fs : FS) (q : Quote) (wb : Workbook)
    (hdoc : mainDoc fs q = Except.ok wb) :
    ∃ row dt x s', dateutil_parse q.updated = some dt ∧ locale_atof q.rate = some x ∧
      wb.sheet_by_index 0 = some s' ∧
      s'.cell_get_value 1 row = some (GnmValue.vString (strftimeYmdHMS dt)) ∧
      s'.cell_get_value 2 row = some (GnmValue.vFloat x) := by
  simp only [mainDoc] at hdoc
  split at hdoc
  · exact absurd hdoc (by simp)
  next sheet0 hsheet0 =>
    split at hdoc
    · exact absurd hdoc (by simp)
    next row hrow =>
      unfold writeRow at hdoc
      split at hdoc
      · exact absurd hdoc (by simp)
      next sheet3 heq =>
        split at heq
        · exact absurd heq (by simp)
        next dt hts =>
          split at heq
          · exact absurd heq (by simp)
          next x hx =>
            rw [Except.ok.injEq] at heq hdoc
            refine ⟨row, dt, x, sheet3, hts, hx, ?_, ?_, ?_⟩
            · exact hdoc ▸ set_sheet_zero _ sheet0 _ hsheet0
            · rw [← heq]
              exact (writeCells_values _ row dt x).1
            · rw [← heq]
              exact (writeCells_values _ row dt x).2

/-- **C8.** On save failure the workflow's writes are not rolled back and
the prior on-disk file is not replaced: the run ends with the `IOError`,
the filesystem after the run equals the filesystem before it, and the
in-memory document handed to the save still carries the cell mutations
(timestamp text and price value at the target row). -/
theorem save_failure_no_rollback (saveOk : String → Bool) (fs : FS) (q : Quote)
    (wb : Workbook) (hdoc : mainDoc fs q = Except.ok wb)
    (hfail : saveOk wb.uri = false) :
    (runMain saveOk fs q).1 = Except.error (PyError.ioError "Failed to save workbook") ∧
      (runMain saveOk fs q).2 = fs ∧
      ∃ row dt x s', dateutil_parse q.updated = some dt ∧ locale_atof q.rate = some x ∧
        wb.sheet_by_index 0 = some s' ∧
        s'.cell_get_value 1 row = some (GnmValue.vString (strftimeYmdHMS dt)) ∧
        s'.cell_get_value 2 row = some (GnmValue.vFloat x) := by
  have hsave : wb_save saveOk fs wb none =
      Except.error (PyError.ioError "Failed to save workbook") := by
    simp [wb_save, saveTargetUri, hfail]
  exact ⟨by simp [runMain, hdoc, hsave], by simp [runMain, hdoc, hsave],
    mainDoc_ok_cells fs q wb hdoc⟩

/-- Witness for C8: against a stored workbook and the example quote, a
failing save ends the run with the `IOError` and leaves the filesystem
exactly as before. -/
theorem save_failure_no_rollback_witness :
    mainDoc fsOne wQuote = Except.ok wbAfter ∧
      (runMain (fun _ => false) fsOne wQuote).1 =
        Except.error (PyError.ioError "Failed to save workbook") ∧
      (runMain (fun _ => false) fsOne wQuote).2 = fsOne := by
  have hdoc : mainDoc fsOne wQuote = Except.ok wbAfter := rfl
  have h := save_failure_no_rollback (fun _ => false) fsOne wQuote wbAfter hdoc rfl
  exact ⟨hdoc, h.1, h.2.1⟩

/-- **C9.** For every sheet in which every row index in `2 .. rows-1`
holds a value in column 1, the scan exhausts the loop and leaves the
target row index at `rows - 1`, so the subsequent timestamp and price
writes overwrite the last scanned row — a row that held a value. -/
theorem findRow_exhaust_last_row (s : Sheet) (hrows : 2 < s.rows)
    (hfilled : ∀ r, 2 ≤ r → r < s.rows → (s.cell_get_value 1 r).isSome) :
    s.findRow = some (s.rows - 1) ∧
      (s.cell_get_value 1 (s.rows - 1)).isSome ∧
      ∀ dt x,
        (writeCells s (s.rows - 1) dt x).cell_get_value 1 (s.rows - 1) =
            some (GnmValue.vString (strftimeYmdHMS dt)) ∧
          (writeCells s (s.rows - 1) dt x).cell_get_value 2 (s.rows - 1) =
            some (GnmValue.vFloat x) := by
  constructor
  · unfold Sheet.findRow
    have h := scanLoop_exhaust (fun r => (s.cell_get_value 1 r).isNone) (s.rows - 2) 2
      (by omega) (fun i hi => by
        have hx := hfilled (2 + i) (by omega) (by omega)
        rcases Option.isSome_iff_exists.mp hx with ⟨v, hv⟩
        simp [hv])
    rw [h]
    exact congrArg some (by omega)
  · refine ⟨hfilled (s.rows - 1) (by omega) (by omega), fun dt x => ?_⟩
    constructor <;>
      simp [writeCells, Sheet.cell_set_text, Sheet.cell_set_value, Sheet.cell_get_value]

/-- Witness for C9: on a 5-row sheet whose column 1 is filled in every data
row, the scan ends at row 4 = rows-1 and the timestamp write lands there. -/
theorem findRow_exhaust_last_row_witness :
    (2 < sheetAllFilled.rows ∧ sheetAllFilled.findRow = some 4) ∧
      (writeCells sheetAllFilled 4 dt0 1).cell_get_value 1 4 =
        some (GnmValue.vString (strftimeYmdHMS dt0)) := by
  have h := findRow_exhaust_last_row sheetAllFilled (by decide)
    (fun r h1 h2 => by
      have h3 : r < 5 := h2
      interval_cases r <;> decide)
  exact ⟨⟨by decide, h.1⟩, (h.2.2 dt0 1).1⟩

/-- **C10.** The row-end scan inspects only column 1: a row whose column-1
cell is empty is selected as the target even when its column-2 cell holds a
value, and the subsequent price write overwrites that column-2 value. -/
theorem scan_only_column1 (s : Sheet) (r0 : Nat) (v : GnmValue)
    (h2 : 2 ≤ r0) (hlt : r0 < s.rows)
    (hempty1 : s.cell_get_value 1 r0 = none)
    (hprev : ∀ r, 2 ≤ r → r < r0 → (s.cell_get_value 1 r).isSome)
    (_hval2 : s.cell_get_value 2 r0 = some v) :
    s.findRow = some r0 ∧
      ∀ dt x, (writeCells s r0 dt x).cell_get_value 2 r0 = some (GnmValue.vFloat x) := by
  refine ⟨findRow_eq_first_empty s r0 h2 hlt hempty1 hprev, fun dt x => ?_⟩
  simp [writeCells, Sheet.cell_set_text, Sheet.cell_set_value, Sheet.cell_get_value]

/-- Witness for C10: row 3 has no column-1 value but holds 3 in column 2;
the scan selects row 3 and the price write replaces the column-2 value. -/
theorem scan_only_column1_witness :
    (sheetColumn2Full.cell_get_value 1 3 = none ∧
        sheetColumn2Full.cell_get_value 2 3 = some (GnmValue.vFloat 3)) ∧
      sheetColumn2Full.findRow = some 3 ∧
      (writeCells sheetColumn2Full 3 dt0 1).cell_get_value 2 3 =
        some (GnmValue.vFloat 1) := by
  have h := scan_only_column1 sheetColumn2Full 3 (GnmValue.vFloat 3) (by decide) (by decide)
    (by rfl) (fun r h1 h2 => by
      interval_cases r
      decide) (by rfl)
  exact ⟨⟨by rfl, by rfl⟩, h.1, h.2 dt0 1⟩

